import Mathlib

/-
Verification development for the Remote Admin Tool backend.

The inspected source is `src/api.py`, the HTTP control surface: request
routing, query/body parsing, and thin glue that calls into a Connection
Manager.  The Connection Manager itself (host/client session management,
screen capture, event relay) is an external collaborator that is not part
of the inspected source; where its behaviour matters it is modelled from
the written specification, and each such definition is marked
`Modelled from the spec:` in its doc comment.

Handlers are embedded as pure functions from their inputs (parsed URL
path, query dictionary, request body) and a read-only view of the
Connection Manager to a pair of the HTTP response and the trace of
Connection Manager operations the handler invoked, in order.
-/

namespace RemoteAdmin

/-- JSON values, as produced by the handlers via `json.dumps` and consumed
via `json.loads`. -/
inductive Json where
  | null : Json
  | bool (b : Bool) : Json
  | num (n : Int) : Json
  | str (s : String) : Json
  | arr (xs : List Json) : Json
  | obj (fields : List (String × Json)) : Json

/-- An HTTP response sent by the handler: either a JSON body with a status
code (via `send_json_response`) or a raw JPEG image body with status 200
(the success branch of `handle_screenshot`).  JPEG bytes are modelled as a
list of byte values. -/
inductive Response where
  | json (status : Nat) (body : Json) : Response
  | image (bytes : List Nat) : Response

/-- One call made by a handler into the Connection Manager.  Handlers are
embedded to also return the list of these calls, in the order they are
made, so that statements like "this request path invokes no Connection
Manager operation" are expressible. -/
inductive MgrCall where
  | isConnected : MgrCall
  | isHosting : MgrCall
  | getRemoteScreen (quality : Int) : MgrCall
  | readConnectionHandlers : MgrCall
  | readRemoteAddress : MgrCall
  | readHostId : MgrCall
  | connect (address host_id : String) : MgrCall
  | disconnect : MgrCall
  | startHosting : MgrCall
  | stopHosting : MgrCall
  | sendMouseEvent : MgrCall
  | sendKeyboardEvent : MgrCall
deriving DecidableEq

/-- Read-only view of the Connection Manager as consumed by the handlers in
`api.py`: the query methods `is_connected()`, `is_hosting()`,
`get_remote_screen(quality)`, the `connection_handlers` dict (each value a
dict whose `connected_time` key may be absent — the handler reads it with
`.get('connected_time', 0)`), and the plain attributes `remote_address`
and `host_id` (None modelled as `none`).  `get_remote_screen` returns
`none` for Python `None` and `some []` for empty bytes; both are falsy. -/
structure Manager where
  is_connected : Bool
  is_hosting : Bool
  get_remote_screen : Int → Option (List Nat)
  connection_handlers : List (String × Option Nat)
  remote_address : Option String
  host_id : Option String

/-- Decimal-digit test, as used by `int()` on a decimal literal. -/
def isAsciiDigit (c : Char) : Bool := '0' ≤ c && c ≤ '9'

/-- Whitespace stripped by Python `int()` around a numeric string. -/
def isPySpace (c : Char) : Bool :=
  c = ' ' || c = '\t' || c = '\n' || c = '\r'

/-- Value of a digit run, accumulator style; `none` on a non-digit. -/
def decDigitsAux : List Char → Nat → Option Nat
  | [], acc => some acc
  | c :: cs, acc =>
      if isAsciiDigit c then decDigitsAux cs (acc * 10 + (c.toNat - 48))
      else none

/-- Value of a nonempty all-digit character run; `none` otherwise. -/
def decDigits (cs : List Char) : Option Nat :=
  if cs.isEmpty then none else decDigitsAux cs 0

/-- Model of Python `int(s)` on a decimal string: surrounding whitespace is
stripped, an optional single sign is allowed, then a nonempty run of ASCII
decimal digits; every other input raises ValueError, modelled as `none`.
(Underscore digit separators and non-ASCII digits, which CPython also
accepts, are outside this model.) -/
def pyInt (s : String) : Option Int :=
  let cs := ((s.toList.dropWhile isPySpace).reverse.dropWhile isPySpace).reverse
  match cs with
  | '+' :: rest => (decDigits rest).map (fun n => (n : Int))
  | '-' :: rest => (decDigits rest).map (fun n => -(n : Int))
  | rest => (decDigits rest).map (fun n => (n : Int))

/-- Lookup in the query dictionary produced by `parse_qs`: a mapping from
parameter name to the list of its values. -/
def qget (query : List (String × List String)) (k : String) :
    Option (List String) :=
  match query with
  | [] => none
  | (k', v) :: rest => if k' = k then some v else qget rest k

/-- The `quality` computation at the top of `handle_screenshot`: default 70;
if the `quality` parameter is present with a truthy (nonempty) value list,
`int()` its first value and clamp it with `max(1, min(100, quality))`; a
ValueError from `int()` is swallowed by `except ValueError: pass`, leaving
the default. -/
def screenshotQuality (query : List (String × List String)) : Int :=
  match qget query "quality" with
  | some (s :: _) =>
      match pyInt s with
      | some q => max 1 (min 100 q)
      | none => 70
  | _ => 70

/-- JSON error body `{'error': msg}` as built by the handlers. -/
def errBody (msg : String) : Json := Json.obj [("error", Json.str msg)]

/-- Json for an optional string attribute (Python None becomes JSON null). -/
def jsonOfOptStr : Option String → Json
  | none => Json.null
  | some s => Json.str s

/-- Embedding of `handle_status`: reports `is_connected()`, `is_hosting()`,
`remote_address`, `host_id` and the current time; 500 if the connection
manager is not available. -/
def handleStatus (mgr : Option Manager) (now : Nat) :
    Response × List MgrCall :=
  match mgr with
  | none => (Response.json 500 (errBody "Connection manager not available"), [])
  | some m =>
      (Response.json 200 (Json.obj
        [("connected", Json.bool m.is_connected),
         ("hosting", Json.bool m.is_hosting),
         ("remote_address", jsonOfOptStr m.remote_address),
         ("host_id", jsonOfOptStr m.host_id),
         ("timestamp", Json.num (now : Int))]),
       [MgrCall.isConnected, MgrCall.isHosting,
        MgrCall.readRemoteAddress, MgrCall.readHostId])

/-- The `connections` list built by `handle_connections`: one entry per
`connection_handlers` item — but only when `is_hosting()`; otherwise the
list stays empty. -/
def connectionEntries (m : Manager) : List Json :=
  if m.is_hosting then
    m.connection_handlers.map (fun p =>
      Json.obj [("address", Json.str p.1),
                ("connected_time", Json.num ((p.2.getD 0 : Nat) : Int))])
  else []

/-- Embedding of `handle_connections`: 500 if the connection manager is not
available, else a 200 JSON response with the connections list. -/
def handleConnections (mgr : Option Manager) : Response × List MgrCall :=
  match mgr with
  | none => (Response.json 500 (errBody "Connection manager not available"), [])
  | some m =>
      (Response.json 200 (Json.obj [("connections", Json.arr (connectionEntries m))]),
       if m.is_hosting then [MgrCall.isHosting, MgrCall.readConnectionHandlers]
       else [MgrCall.isHosting])

/-- Embedding of `handle_screenshot`: compute the clamped/default quality,
then — only if `is_connected()` — ask `get_remote_screen(quality)`; a
truthy (non-None, nonempty) result is sent as an `image/jpeg` body,
anything else falls through to the 400 `Unable to get screenshot` JSON
error. -/
def handleScreenshot (mgr : Option Manager)
    (query : List (String × List String)) : Response × List MgrCall :=
  match mgr with
  | none => (Response.json 500 (errBody "Connection manager not available"), [])
  | some m =>
      let quality := screenshotQuality query
      if m.is_connected then
        match m.get_remote_screen quality with
        | some (b :: bs) =>
            (Response.image (b :: bs),
             [MgrCall.isConnected, MgrCall.getRemoteScreen quality])
        | _ =>
            (Response.json 400 (errBody "Unable to get screenshot"),
             [MgrCall.isConnected, MgrCall.getRemoteScreen quality])
      else
        (Response.json 400 (errBody "Unable to get screenshot"),
         [MgrCall.isConnected])

/-- Embedding of `do_GET`: route on the parsed URL path.  The body of
`handle_system_info` is cut off in the inspected source, so that handler is
taken as a parameter; the claims proved here never reach it. -/
def doGET (sysInfo : Option Manager → Response × List MgrCall)
    (mgr : Option Manager) (path : String)
    (query : List (String × List String)) (now : Nat) :
    Response × List MgrCall :=
  if path = "/api/status" then handleStatus mgr now
  else if path = "/api/connections" then handleConnections mgr
  else if path = "/api/screenshot" then handleScreenshot mgr query
  else if path = "/api/system-info" then sysInfo mgr
  else (Response.json 404 (errBody "Not found"), [])

/-- Embedding of `do_POST`.  The body is read in full (`content_length` is
its byte length, modelled as the string length); with a positive length it
is fed to `json.loads` — modelled by the `loads` parameter, `none` meaning
JSONDecodeError — and a decode failure returns 400 `Invalid JSON` before
any path dispatch.  With length 0 the data is the empty dict.  The POST
sub-handlers (`handle_connect` and friends) are past the end of the
inspected source, so they are taken as one parameter `sub` from endpoint
name and parsed body to response and manager-call trace. -/
def doPOST (sub : String → Json → Response × List MgrCall)
    (loads : String → Option Json) (path : String) (body : String) :
    Response × List MgrCall :=
  let parsed : Option Json :=
    if body.length > 0 then loads body else some (Json.obj [])
  match parsed with
  | none => (Response.json 400 (errBody "Invalid JSON"), [])
  | some data =>
      if path = "/api/connect" then sub "connect" data
      else if path = "/api/disconnect" then sub "disconnect" data
      else if path = "/api/start-hosting" then sub "start-hosting" data
      else if path = "/api/stop-hosting" then sub "stop-hosting" data
      else if path = "/api/send-mouse-event" then sub "send-mouse-event" data
      else if path = "/api/send-keyboard-event" then sub "send-keyboard-event" data
      else (Response.json 404 (errBody "Not found"), [])

/-- Modelled from the spec: the Connection Manager's mode, one of
Idle, Hosting, ConnectedAsClient — the manager implementation is not part
of the inspected source. -/
inductive Mode where
  | idle : Mode
  | hosting : Mode
  | connectedAsClient : Mode
deriving DecidableEq

/-- Modelled from the spec: a Peer Session's lifecycle state. -/
inductive SessionState where
  | handshaking : SessionState
  | active : SessionState
  | closing : SessionState
  | closed : SessionState
deriving DecidableEq

/-- Modelled from the spec: a Peer Session Record — `connected_time` is the
handshake-completion timestamp, `state` the session lifecycle state.  The
peer address is kept as the key of the `sessions` mapping. -/
structure SessionRecord where
  connected_time : Nat
  state : SessionState
deriving DecidableEq

/-- Modelled from the spec: the Connection Manager's mutable state — the
manager implementation is absent from the inspected source.  `sessions`
maps peer address to session record; `cached_frame` is the client-mode
session's latest inbound frame cache used by `get_remote_screen`. -/
structure ManagerState where
  mode : Mode
  host_id : Option String
  remote_address : Option String
  sessions : List (String × SessionRecord)
  cached_frame : Option (List Nat)
deriving DecidableEq

/-- Errors surfaced by manager-level operations, per the spec's taxonomy. -/
inductive MgrError where
  | alreadyActive : MgrError
  | bindError : MgrError
  | handshakeRejected : MgrError
  | connectError : MgrError
deriving DecidableEq

/-- The manager state at startup: Idle, nothing set. -/
def initState : ManagerState :=
  { mode := Mode.idle, host_id := none, remote_address := none,
    sessions := [], cached_frame := none }

/-- Environment outcome of a `connect` attempt: handshake accepted at time
`t`, rejected by the peer, or transport failure/timeout. -/
inductive ConnectOutcome where
  | accepted (t : Nat) : ConnectOutcome
  | rejected : ConnectOutcome
  | transportFailed : ConnectOutcome
deriving DecidableEq

/-- Modelled from the spec: `start_hosting(config)` — fails
AlreadyActiveError if mode is not Idle, BindError if the listen address is
in use (the `bindOk` environment flag), else mode becomes Hosting with the
advertised `host_id` set and no sessions yet.  A failing call returns the
state unchanged. -/
def start_hosting (st : ManagerState) (addr host_id : String)
    (bindOk : Bool) : Except MgrError Unit × ManagerState :=
  match st.mode with
  | Mode.hosting => (Except.error MgrError.alreadyActive, st)
  | Mode.connectedAsClient => (Except.error MgrError.alreadyActive, st)
  | Mode.idle =>
      if bindOk then
        (Except.ok (),
         { mode := Mode.hosting, host_id := some host_id,
           remote_address := none, sessions := [], cached_frame := none })
      else (Except.error MgrError.bindError, st)

/-- Modelled from the spec: `stop_hosting()` — closes all sessions and
returns to Idle with all fields cleared; a no-op, not an error, when mode
is not Hosting. -/
def stop_hosting (st : ManagerState) : Except MgrError Unit × ManagerState :=
  match st.mode with
  | Mode.hosting => (Except.ok (), initState)
  | _ => (Except.ok (), st)

/-- Modelled from the spec: `connect(address, host_id)` — fails
AlreadyActiveError if mode is not Idle, HandshakeRejectedError or
ConnectError per the environment outcome (no session created, state
unchanged); on an accepted handshake at time `t`, mode becomes
ConnectedAsClient with `remote_address` set and exactly one session. -/
def connect (st : ManagerState) (address host_id : String)
    (outcome : ConnectOutcome) : Except MgrError Unit × ManagerState :=
  match st.mode with
  | Mode.hosting => (Except.error MgrError.alreadyActive, st)
  | Mode.connectedAsClient => (Except.error MgrError.alreadyActive, st)
  | Mode.idle =>
      match outcome with
      | ConnectOutcome.rejected => (Except.error MgrError.handshakeRejected, st)
      | ConnectOutcome.transportFailed => (Except.error MgrError.connectError, st)
      | ConnectOutcome.accepted t =>
          (Except.ok (),
           { mode := Mode.connectedAsClient, host_id := none,
             remote_address := some address,
             sessions := [(address, { connected_time := t, state := SessionState.active })],
             cached_frame := none })

/-- Modelled from the spec: `disconnect()` — closes the single client
session and returns to Idle with all fields cleared; a no-op when mode is
not ConnectedAsClient. -/
def disconnect (st : ManagerState) : Except MgrError Unit × ManagerState :=
  match st.mode with
  | Mode.connectedAsClient => (Except.ok (), initState)
  | _ => (Except.ok (), st)

/-- Modelled from the spec: a completed inbound handshake while Hosting
inserts a session record; outside Hosting no session is ever inserted. -/
def accept_session (st : ManagerState) (address : String) (t : Nat) :
    ManagerState :=
  match st.mode with
  | Mode.hosting =>
      { st with sessions :=
          st.sessions ++ [(address, { connected_time := t, state := SessionState.active })] }
  | _ => st

/-- Modelled from the spec: a session reaching Closed is removed from the
`sessions` mapping (host side). -/
def remove_session (st : ManagerState) (address : String) : ManagerState :=
  match st.mode with
  | Mode.hosting =>
      { st with sessions := st.sessions.filter (fun p => p.1 ≠ address) }
  | _ => st

/-- Modelled from the spec: an inbound SCREEN_FRAME on the client session
overwrites the latest-frame cache. -/
def frame_received (st : ManagerState) (bs : List Nat) : ManagerState :=
  match st.mode with
  | Mode.connectedAsClient => { st with cached_frame := some bs }
  | _ => st

/-- Modelled from the spec: `is_connected()` — boolean derived from mode;
true exactly in ConnectedAsClient mode. -/
def is_connected (st : ManagerState) : Bool :=
  decide (st.mode = Mode.connectedAsClient)

/-- Modelled from the spec: `is_hosting()` — boolean derived from mode. -/
def is_hosting (st : ManagerState) : Bool :=
  decide (st.mode = Mode.hosting)

/-- Modelled from the spec: `get_remote_screen(quality)` — while Hosting,
a local capture through the Frame Source capability `capture`; while
ConnectedAsClient, the session's latest cached inbound frame; `none` when
nothing is connected or on CaptureError (a failing capture yields
`none`). -/
def get_remote_screen (st : ManagerState)
    (capture : Int → Option (List Nat)) (quality : Int) :
    Option (List Nat) :=
  match st.mode with
  | Mode.hosting => capture quality
  | Mode.connectedAsClient => st.cached_frame
  | Mode.idle => none

/-- The read-only view of a modelled manager state that `api.py`'s handlers
consume, with `capture` the injected Frame Source capability. -/
def Manager.ofState (st : ManagerState)
    (capture : Int → Option (List Nat)) : Manager :=
  { is_connected := RemoteAdmin.is_connected st,
    is_hosting := RemoteAdmin.is_hosting st,
    get_remote_screen := RemoteAdmin.get_remote_screen st capture,
    connection_handlers := st.sessions.map (fun p => (p.1, some p.2.connected_time)),
    remote_address := st.remote_address,
    host_id := st.host_id }

/-- One atomic transition of the modelled Connection Manager: a public
operation succeeding or failing (a failed operation keeps the returned
state), or a session-level event (inbound accept, session close, inbound
frame). -/
inductive Step : ManagerState → ManagerState → Prop where
  | startHosting (st : ManagerState) (a h : String) (b : Bool) :
      Step st (start_hosting st a h b).2
  | stopHosting (st : ManagerState) : Step st (stop_hosting st).2
  | connectOp (st : ManagerState) (a h : String) (oc : ConnectOutcome) :
      Step st (connect st a h oc).2
  | disconnectOp (st : ManagerState) : Step st (disconnect st).2
  | acceptSession (st : ManagerState) (a : String) (t : Nat) :
      Step st (accept_session st a t)
  | closeSession (st : ManagerState) (a : String) :
      Step st (remove_session st a)
  | frameReceived (st : ManagerState) (bs : List Nat) :
      Step st (frame_received st bs)

/-- States reachable from startup through the modelled transitions. -/
inductive Reachable : ManagerState → Prop where
  | init : Reachable initState
  | step {st st' : ManagerState} :
      Reachable st → Step st st' → Reachable st'

/-- The mode-field coherence invariant of the modelled manager state:
Idle carries no sessions and no addresses or identities, Hosting carries no
client-mode remote address, ConnectedAsClient carries no advertised host id
and at most one session. -/
def Inv (st : ManagerState) : Prop :=
  (st.mode = Mode.idle →
    st.sessions = [] ∧ st.remote_address = none ∧ st.host_id = none) ∧
  (st.mode = Mode.hosting → st.remote_address = none) ∧
  (st.mode = Mode.connectedAsClient →
    st.host_id = none ∧ st.sessions.length ≤ 1)

/-- A Frame Source capability that always produces the same small frame. -/
def captureConst : Int → Option (List Nat) := fun _ => some [1, 2, 3]

/-- A Hosting manager state with no sessions yet. -/
def hostingSt : ManagerState :=
  { mode := Mode.hosting, host_id := some "abc123", remote_address := none,
    sessions := [], cached_frame := none }

/-- A Hosting manager state with two active sessions. -/
def hostingStTwo : ManagerState :=
  { mode := Mode.hosting, host_id := some "abc123", remote_address := none,
    sessions := [("10.0.0.7:4711", { connected_time := 5, state := SessionState.active }),
                 ("10.0.0.8:4712", { connected_time := 6, state := SessionState.active })],
    cached_frame := none }

/-- A ConnectedAsClient manager state with a cached inbound frame. -/
def clientSt : ManagerState :=
  { mode := Mode.connectedAsClient, host_id := none,
    remote_address := some "10.0.0.5:4711",
    sessions := [("10.0.0.5:4711", { connected_time := 100, state := SessionState.active })],
    cached_frame := some [9, 9] }

/-- A ConnectedAsClient manager state with one session and no cached
inbound frame yet. -/
def clientStNoFrame : ManagerState :=
  { mode := Mode.connectedAsClient, host_id := none,
    remote_address := some "10.0.0.6:4711",
    sessions := [("10.0.0.6:4711", { connected_time := 101, state := SessionState.active })],
    cached_frame := none }

/-- The handler view of a connected client-mode manager with a cached
frame. -/
def mgrConn : Manager := Manager.ofState clientSt captureConst

/-- A trivial POST sub-handler family making no manager calls; the claims
that quantify over sub-handlers are instantiated with it in witnesses. -/
def subNone : String → Json → Response × List MgrCall :=
  fun _ _ => (Response.json 200 Json.null, [])

/-- A JSON decoder failing on every input; it agrees with Python's
json.loads on each body it is applied to in this file (none of them is
valid JSON). -/
def loadsNone : String → Option Json := fun _ => none

/-- A trivial stand-in for the cut-off system-info handler; the claims that
quantify over it are instantiated with it in witnesses. -/
def sysInfoNone : Option Manager → Response × List MgrCall :=
  fun _ => (Response.json 200 Json.null, [])

/-- The manager-call trace of the screenshot handler: `is_connected()` is
always queried; `get_remote_screen` is queried, at the computed quality,
exactly when it returns true. -/
theorem handleScreenshot_snd (m : Manager)
    (query : List (String × List String)) :
    (handleScreenshot (some m) query).2 =
      if m.is_connected then
        [MgrCall.isConnected, MgrCall.getRemoteScreen (screenshotQuality query)]
      else [MgrCall.isConnected] := by
  cases hc : m.is_connected with
  | false => simp [handleScreenshot, hc]
  | true =>
      cases hres : m.get_remote_screen (screenshotQuality query) with
      | none => simp [handleScreenshot, hc, hres]
      | some l => cases l <;> simp [handleScreenshot, hc, hres]

/-- The screenshot handler answers the 400 JSON error whenever it is not
connected or the screen data is None or empty. -/
theorem handleScreenshot_fst_error (m : Manager)
    (query : List (String × List String))
    (h : m.is_connected = false ∨
         m.get_remote_screen (screenshotQuality query) = none ∨
         m.get_remote_screen (screenshotQuality query) = some []) :
    (handleScreenshot (some m) query).1 =
      Response.json 400 (errBody "Unable to get screenshot") := by
  cases hc : m.is_connected with
  | false => simp [handleScreenshot, hc]
  | true =>
      rcases h with h | h | h
      · exact absurd hc (by simp [h])
      · simp [handleScreenshot, hc, h]
      · simp [handleScreenshot, hc, h]

/-- Claim C1: for every screenshot request whose quality query parameter
parses as an integer q of any value, every quality passed down to
get_remote_screen equals q clamped into 1..100 — and when the manager is
connected the call is actually made with that clamped value, so an
out-of-range q is clamped, never rejected, and the Frame Source can only
ever observe a value in 1..100. -/
theorem screenshot_quality_clamped (m : Manager)
    (query : List (String × List String)) (s : String) (tl : List String)
    (q : Int) (hq : qget query "quality" = some (s :: tl))
    (hp : pyInt s = some q) :
    (1 ≤ max 1 (min 100 q) ∧ max 1 (min 100 q) ≤ 100) ∧
    (∀ r : Int,
      MgrCall.getRemoteScreen r ∈ (handleScreenshot (some m) query).2 →
        r = max 1 (min 100 q)) ∧
    (m.is_connected = true →
      MgrCall.getRemoteScreen (max 1 (min 100 q)) ∈
        (handleScreenshot (some m) query).2) := by
  have hsq : screenshotQuality query = max 1 (min 100 q) := by
    simp only [screenshotQuality, hq, hp]
  refine ⟨⟨le_max_left _ _, max_le (by norm_num) (min_le_left _ _)⟩, ?_, ?_⟩
  · intro r hr
    rw [handleScreenshot_snd, hsq] at hr
    cases hc : m.is_connected <;> simp [hc] at hr
    exact hr
  · intro hc
    rw [handleScreenshot_snd, hsq, hc]
    simp

/-- Witness for C1 at quality parameter 150 on a connected manager: the
value reaching get_remote_screen is 100. -/
theorem screenshot_quality_clamped_witness :
    (1 ≤ max 1 (min 100 (150 : Int)) ∧ max 1 (min 100 (150 : Int)) ≤ 100) ∧
    (∀ r : Int,
      MgrCall.getRemoteScreen r ∈
        (handleScreenshot (some mgrConn) [("quality", ["150"])]).2 →
        r = max 1 (min 100 (150 : Int))) ∧
    (mgrConn.is_connected = true →
      MgrCall.getRemoteScreen (max 1 (min 100 (150 : Int))) ∈
        (handleScreenshot (some mgrConn) [("quality", ["150"])]).2) :=
  screenshot_quality_clamped mgrConn [("quality", ["150"])] "150" [] 150
    (by decide) (by decide)

/-- Claim C3: whenever get_remote_screen returns None or empty bytes (as it
does on CaptureError or with nothing connected), the screenshot path
answers the 400 JSON error rather than an image; and the handler's whole
behaviour is a function of the two plain core results is_connected and
get_remote_screen alone — two managers agreeing on those produce the same
response and trace, so no internal session state is inspected. -/
theorem screenshot_empty_error (m : Manager)
    (query : List (String × List String))
    (h : m.get_remote_screen (screenshotQuality query) = none ∨
         m.get_remote_screen (screenshotQuality query) = some []) :
    (handleScreenshot (some m) query).1 =
      Response.json 400 (errBody "Unable to get screenshot") ∧
    ∀ m' : Manager, m'.is_connected = m.is_connected →
      m'.get_remote_screen = m.get_remote_screen →
      handleScreenshot (some m') query = handleScreenshot (some m) query := by
  constructor
  · exact handleScreenshot_fst_error m query (Or.inr h)
  · intro m' hic hg
    simp only [handleScreenshot, hic, hg]

/-- Witness for C3: a connected client manager with no cached frame — the
core returns None and the handler answers the 400 error; any manager with
the same plain results behaves identically. -/
theorem screenshot_empty_error_witness :
    (handleScreenshot (some (Manager.ofState clientStNoFrame captureConst)) []).1 =
      Response.json 400 (errBody "Unable to get screenshot") ∧
    ∀ m' : Manager,
      m'.is_connected = (Manager.ofState clientStNoFrame captureConst).is_connected →
      m'.get_remote_screen = (Manager.ofState clientStNoFrame captureConst).get_remote_screen →
      handleScreenshot (some m') [] =
        handleScreenshot (some (Manager.ofState clientStNoFrame captureConst)) [] :=
  screenshot_empty_error (Manager.ofState clientStNoFrame captureConst) []
    (Or.inl rfl)

/-- Claim C8: when the quality parameter is absent, present with no value,
or present with a value that does not parse as an integer, the handler
falls back to the default quality 70 (which lies in 1..100): any
get_remote_screen call is made with 70, and the response and trace are
exactly those of the same request with no query parameters — the malformed
parameter is silently ignored, never rejected. -/
theorem screenshot_default_quality (m : Manager)
    (query : List (String × List String))
    (h : qget query "quality" = none ∨ qget query "quality" = some [] ∨
         ∃ s tl, qget query "quality" = some (s :: tl) ∧ pyInt s = none) :
    screenshotQuality query = 70 ∧
    ((1 : Int) ≤ 70 ∧ (70 : Int) ≤ 100) ∧
    (m.is_connected = true →
      MgrCall.getRemoteScreen 70 ∈ (handleScreenshot (some m) query).2) ∧
    handleScreenshot (some m) query = handleScreenshot (some m) [] := by
  have hsq : screenshotQuality query = 70 := by
    rcases h with h | h | ⟨s, tl, h, hps⟩
    · simp only [screenshotQuality, h]
    · simp only [screenshotQuality, h]
    · simp only [screenshotQuality, h, hps]
  refine ⟨hsq, ⟨by norm_num, by norm_num⟩, ?_, ?_⟩
  · intro hc
    rw [handleScreenshot_snd, hsq, hc]
    simp
  · have hsq0 : screenshotQuality query = screenshotQuality [] := hsq
    unfold handleScreenshot
    rw [hsq0]

/-- Witness for C8 at the unparseable quality parameter value "banana" on a
connected manager: the behaviour is that of the parameterless request, with
quality 70. -/
theorem screenshot_default_quality_witness :
    screenshotQuality [("quality", ["banana"])] = 70 ∧
    ((1 : Int) ≤ 70 ∧ (70 : Int) ≤ 100) ∧
    (mgrConn.is_connected = true →
      MgrCall.getRemoteScreen 70 ∈
        (handleScreenshot (some mgrConn) [("quality", ["banana"])]).2) ∧
    handleScreenshot (some mgrConn) [("quality", ["banana"])] =
      handleScreenshot (some mgrConn) [] :=
  screenshot_default_quality mgrConn [("quality", ["banana"])]
    (Or.inr (Or.inr ⟨"banana", [], by decide, by decide⟩))

/-- Claim C2 counterexample: in a Hosting state whose Frame Source would
happily return bytes, the screenshot path answers the 400 error and makes
no get_remote_screen call at all — contrary to the claim, no local capture
is triggered and no bytes are returned. -/
theorem screenshot_hosting_no_capture :
    RemoteAdmin.is_hosting hostingSt = true ∧
    captureConst 70 = some [1, 2, 3] ∧
    (handleScreenshot (some (Manager.ofState hostingSt captureConst)) []).1 =
      Response.json 400 (errBody "Unable to get screenshot") ∧
    (handleScreenshot (some (Manager.ofState hostingSt captureConst)) []).2 =
      [MgrCall.isConnected] :=
  ⟨rfl, rfl, rfl, rfl⟩

/-- Claim C2 (amended): via the screenshot request path, get_remote_screen
is reached only when is_connected() holds — in ConnectedAsClient mode,
where a nonempty cached inbound frame is returned as the image body; while
Hosting the path answers the 400 error without invoking get_remote_screen,
because the handler gates on is_connected() alone. -/
theorem screenshot_mode_behavior (st : ManagerState)
    (capture : Int → Option (List Nat))
    (query : List (String × List String)) (bs : List Nat) :
    (st.mode = Mode.hosting →
      handleScreenshot (some (Manager.ofState st capture)) query =
        (Response.json 400 (errBody "Unable to get screenshot"),
         [MgrCall.isConnected])) ∧
    (st.mode = Mode.connectedAsClient → st.cached_frame = some bs → bs ≠ [] →
      handleScreenshot (some (Manager.ofState st capture)) query =
        (Response.image bs,
         [MgrCall.isConnected,
          MgrCall.getRemoteScreen (screenshotQuality query)])) := by
  constructor
  · intro hm
    have hic : (Manager.ofState st capture).is_connected = false := by
      simp [Manager.ofState, RemoteAdmin.is_connected, hm]
    simp [handleScreenshot, hic]
  · intro hm hcf hne
    have hic : (Manager.ofState st capture).is_connected = true := by
      simp [Manager.ofState, RemoteAdmin.is_connected, hm]
    have hg : (Manager.ofState st capture).get_remote_screen
        (screenshotQuality query) = some bs := by
      simp [Manager.ofState, RemoteAdmin.get_remote_screen, hm, hcf]
    cases bs with
    | nil => exact absurd rfl hne
    | cons b tl => simp [handleScreenshot, hic, hg]

/-- Witness for the amended C2 on a concrete client-mode state with cached
frame bytes: the screenshot path returns exactly those bytes as the image
body and queries get_remote_screen once. -/
theorem screenshot_mode_behavior_witness :
    handleScreenshot (some (Manager.ofState clientSt captureConst)) [] =
      (Response.image [9, 9],
       [MgrCall.isConnected,
        MgrCall.getRemoteScreen (screenshotQuality [])]) :=
  (screenshot_mode_behavior clientSt captureConst [] [9, 9]).2 rfl rfl
    (by simp)

/-- Claim C4 counterexample: in ConnectedAsClient mode holding exactly one
session record, the connections listing is the empty list — not one entry
per session record as the claim requires, because the handler enumerates
sessions only when is_hosting() is true. -/
theorem connections_client_mode_empty :
    clientSt.mode = Mode.connectedAsClient ∧
    clientSt.sessions.length = 1 ∧
    (handleConnections (some (Manager.ofState clientSt captureConst))).1 =
      Response.json 200 (Json.obj [("connections", Json.arr [])]) :=
  ⟨rfl, rfl, rfl⟩

/-- Claim C4 (amended): the connections listing carries exactly one entry,
with address and connected_time, per session record while the manager is
Hosting, and is the empty list in every other mode — including
ConnectedAsClient with its 0-or-1 session. -/
theorem connections_only_when_hosting (st : ManagerState)
    (capture : Int → Option (List Nat)) :
    (st.mode = Mode.hosting →
      connectionEntries (Manager.ofState st capture) =
        st.sessions.map (fun p =>
          Json.obj [("address", Json.str p.1),
                    ("connected_time", Json.num (p.2.connected_time : Int))])) ∧
    (st.mode ≠ Mode.hosting →
      connectionEntries (Manager.ofState st capture) = []) ∧
    (handleConnections (some (Manager.ofState st capture))).1 =
      Response.json 200 (Json.obj [("connections",
        Json.arr (connectionEntries (Manager.ofState st capture)))]) := by
  refine ⟨?_, ?_, rfl⟩
  · intro hm
    simp [connectionEntries, Manager.ofState, RemoteAdmin.is_hosting, hm,
      List.map_map]
  · intro hm
    simp [connectionEntries, Manager.ofState, RemoteAdmin.is_hosting, hm]

/-- Witness for the amended C4 on a Hosting state with two sessions: the
listing carries both entries with their connection times. -/
theorem connections_only_when_hosting_witness :
    connectionEntries (Manager.ofState hostingStTwo captureConst) =
      hostingStTwo.sessions.map (fun p =>
        Json.obj [("address", Json.str p.1),
                  ("connected_time", Json.num (p.2.connected_time : Int))]) :=
  (connections_only_when_hosting hostingStTwo captureConst).1 rfl

/-- Claim C5: from any state whose mode is not Idle, start_hosting fails
AlreadyActiveError and returns the state — hence the mode — unchanged; and
immediately after any successful start_hosting, a second start_hosting with
no intervening stop_hosting fails AlreadyActiveError with the state
unchanged. -/
theorem start_hosting_already_active (st st0 : ManagerState)
    (a h a0 h0 : String) (b b0 : Bool) (hm : st.mode ≠ Mode.idle) :
    start_hosting st a h b = (Except.error MgrError.alreadyActive, st) ∧
    ((start_hosting st0 a0 h0 b0).1 = Except.ok () →
      start_hosting (start_hosting st0 a0 h0 b0).2 a h b =
        (Except.error MgrError.alreadyActive,
         (start_hosting st0 a0 h0 b0).2)) := by
  constructor
  · cases hmode : st.mode with
    | idle => exact absurd hmode hm
    | hosting => simp [start_hosting, hmode]
    | connectedAsClient => simp [start_hosting, hmode]
  · intro hok
    cases hmode : st0.mode with
    | idle =>
        cases hb : b0 with
        | true => simp [start_hosting, hmode, hb]
        | false => simp [start_hosting, hmode, hb] at hok
    | hosting => simp [start_hosting, hmode] at hok
    | connectedAsClient => simp [start_hosting, hmode] at hok

/-- Witness for C5: start_hosting on a Hosting state fails
AlreadyActiveError with the state unchanged, and the successful
start_hosting from the startup state followed by another start_hosting
fails the same way. -/
theorem start_hosting_already_active_witness :
    (start_hosting hostingSt "0.0.0.0:9999" "h2" true =
      (Except.error MgrError.alreadyActive, hostingSt)) ∧
    ((start_hosting initState "0.0.0.0:9999" "h1" true).1 = Except.ok () →
      start_hosting (start_hosting initState "0.0.0.0:9999" "h1" true).2
          "0.0.0.0:9999" "h2" true =
        (Except.error MgrError.alreadyActive,
         (start_hosting initState "0.0.0.0:9999" "h1" true).2)) :=
  start_hosting_already_active hostingSt initState "0.0.0.0:9999" "h2"
    "0.0.0.0:9999" "h1" true true (by decide)

/-- The invariant holds at startup. -/
theorem Inv_init : Inv initState := by
  refine ⟨fun _ => ⟨rfl, rfl, rfl⟩, fun h => ?_, fun h => ?_⟩ <;>
    simp [initState] at h

/-- Every modelled manager transition preserves the invariant. -/
theorem Inv_step {st st' : ManagerState} (hI : Inv st) (hs : Step st st') :
    Inv st' := by
  cases hs with
  | startHosting a h b =>
      cases hmode : st.mode with
      | idle =>
          cases hb : b with
          | true => simp [start_hosting, hmode, hb, Inv]
          | false => simpa [start_hosting, hmode, hb] using hI
      | hosting => simpa [start_hosting, hmode] using hI
      | connectedAsClient => simpa [start_hosting, hmode] using hI
  | stopHosting =>
      cases hmode : st.mode with
      | idle => simpa [stop_hosting, hmode] using hI
      | hosting => simpa [stop_hosting, hmode] using Inv_init
      | connectedAsClient => simpa [stop_hosting, hmode] using hI
  | connectOp a h oc =>
      cases hmode : st.mode with
      | idle =>
          cases oc with
          | accepted t => simp [connect, hmode, Inv]
          | rejected => simpa [connect, hmode] using hI
          | transportFailed => simpa [connect, hmode] using hI
      | hosting => simpa [connect, hmode] using hI
      | connectedAsClient => simpa [connect, hmode] using hI
  | disconnectOp =>
      cases hmode : st.mode with
      | idle => simpa [disconnect, hmode] using hI
      | hosting => simpa [disconnect, hmode] using hI
      | connectedAsClient => simpa [disconnect, hmode] using Inv_init
  | acceptSession a t =>
      cases hmode : st.mode with
      | idle => simpa [accept_session, hmode] using hI
      | hosting =>
          refine ⟨fun hcontra => ?_, fun _ => ?_, fun hcontra => ?_⟩
          · simp [accept_session, hmode] at hcontra
          · simp [accept_session, hmode]
            exact hI.2.1 hmode
          · simp [accept_session, hmode] at hcontra
      | connectedAsClient => simpa [accept_session, hmode] using hI
  | closeSession a =>
      cases hmode : st.mode with
      | idle => simpa [remove_session, hmode] using hI
      | hosting =>
          refine ⟨fun hcontra => ?_, fun _ => ?_, fun hcontra => ?_⟩
          · simp [remove_session, hmode] at hcontra
          · simp [remove_session, hmode]
            exact hI.2.1 hmode
          · simp [remove_session, hmode] at hcontra
      | connectedAsClient => simpa [remove_session, hmode] using hI
  | frameReceived bs =>
      cases hmode : st.mode with
      | idle => simpa [frame_received, hmode] using hI
      | hosting => simpa [frame_received, hmode] using hI
      | connectedAsClient =>
          refine ⟨fun hcontra => ?_, fun hcontra => ?_, fun _ => ?_⟩
          · simp [frame_received, hmode] at hcontra
          · simp [frame_received, hmode] at hcontra
          · simp [frame_received, hmode]
            exact hI.2.2 hmode

/-- Claim C6: every reachable modelled manager state has a mode among
Idle, Hosting, ConnectedAsClient; while Idle the sessions map is empty and
remote_address and host_id are unset; and the opposite mode's fields are
clear — no remote_address while Hosting, no host_id and at most one session
while ConnectedAsClient.  Each transition of the model is one atomic state
update, so the opposite fields are cleared atomically with the mode
change. -/
theorem reachable_invariants (st : ManagerState) (h : Reachable st) :
    (st.mode = Mode.idle ∨ st.mode = Mode.hosting ∨
      st.mode = Mode.connectedAsClient) ∧
    (st.mode = Mode.idle →
      st.sessions = [] ∧ st.remote_address = none ∧ st.host_id = none) ∧
    (st.mode = Mode.hosting → st.remote_address = none) ∧
    (st.mode = Mode.connectedAsClient →
      st.host_id = none ∧ st.sessions.length ≤ 1) := by
  have hInv : Inv st := by
    induction h with
    | init => exact Inv_init
    | step hr hs ih => exact Inv_step ih hs
  refine ⟨?_, hInv.1, hInv.2.1, hInv.2.2⟩
  cases st.mode
  · exact Or.inl rfl
  · exact Or.inr (Or.inl rfl)
  · exact Or.inr (Or.inr rfl)

/-- Witness for C6 at the reachable startup state. -/
theorem reachable_invariants_witness :
    (initState.mode = Mode.idle ∨ initState.mode = Mode.hosting ∨
      initState.mode = Mode.connectedAsClient) ∧
    (initState.mode = Mode.idle →
      initState.sessions = [] ∧ initState.remote_address = none ∧
        initState.host_id = none) ∧
    (initState.mode = Mode.hosting → initState.remote_address = none) ∧
    (initState.mode = Mode.connectedAsClient →
      initState.host_id = none ∧ initState.sessions.length ≤ 1) :=
  reachable_invariants initState Reachable.init

/-- Claim C7: whenever connect(addr, id) succeeds, is_connected() is true
and remote_address equals addr afterwards; after a subsequent disconnect(),
is_connected() is false and remote_address is unset. -/
theorem connect_then_disconnect (st : ManagerState) (addr host_id : String)
    (oc : ConnectOutcome) (h : (connect st addr host_id oc).1 = Except.ok ()) :
    RemoteAdmin.is_connected (connect st addr host_id oc).2 = true ∧
    (connect st addr host_id oc).2.remote_address = some addr ∧
    RemoteAdmin.is_connected (disconnect (connect st addr host_id oc).2).2 = false ∧
    (disconnect (connect st addr host_id oc).2).2.remote_address = none := by
  cases hmode : st.mode with
  | hosting => simp [connect, hmode] at h
  | connectedAsClient => simp [connect, hmode] at h
  | idle =>
      cases oc with
      | rejected => simp [connect, hmode] at h
      | transportFailed => simp [connect, hmode] at h
      | accepted t =>
          simp [connect, hmode, disconnect, RemoteAdmin.is_connected,
            initState]

/-- Witness for C7: connecting from the startup state to 10.0.0.5:4711 with
an accepted handshake, then disconnecting. -/
theorem connect_then_disconnect_witness :
    RemoteAdmin.is_connected
      (connect initState "10.0.0.5:4711" "abc123" (ConnectOutcome.accepted 42)).2 = true ∧
    (connect initState "10.0.0.5:4711" "abc123" (ConnectOutcome.accepted 42)).2.remote_address =
      some "10.0.0.5:4711" ∧
    RemoteAdmin.is_connected
      (disconnect (connect initState "10.0.0.5:4711" "abc123"
        (ConnectOutcome.accepted 42)).2).2 = false ∧
    (disconnect (connect initState "10.0.0.5:4711" "abc123"
      (ConnectOutcome.accepted 42)).2).2.remote_address = none :=
  connect_then_disconnect initState "10.0.0.5:4711" "abc123"
    (ConnectOutcome.accepted 42) rfl

/-- Claim C9: a POST whose body is nonempty and does not decode as JSON is
answered 400 Invalid JSON with an empty manager-call trace — no connect,
disconnect, hosting, or event-sending operation is invoked, whatever the
path and whatever the sub-handlers would have done. -/
theorem post_invalid_json_no_ops
    (sub : String → Json → Response × List MgrCall)
    (loads : String → Option Json) (path body : String)
    (hlen : 0 < body.length) (hbad : loads body = none) :
    doPOST sub loads path body =
      (Response.json 400 (errBody "Invalid JSON"), []) := by
  simp [doPOST, hlen, hbad]

/-- Witness for C9: a POST to /api/connect with the undecodable body
"nope". -/
theorem post_invalid_json_no_ops_witness :
    doPOST subNone loadsNone "/api/connect" "nope" =
      (Response.json 400 (errBody "Invalid JSON"), []) :=
  post_invalid_json_no_ops subNone loadsNone "/api/connect" "nope"
    (by decide) rfl

/-- Claim C10 counterexample: a POST to the unknown path /api/mystery with
the undecodable nonempty body "oops" is answered 400 Invalid JSON — not the
404 Not found response the claim requires of every unknown-path request,
because do_POST decodes the body before dispatching on the path. -/
theorem unknown_path_json_error_first :
    doPOST subNone loadsNone "/api/mystery" "oops" =
      (Response.json 400 (errBody "Invalid JSON"), []) ∧
    (Response.json 400 (errBody "Invalid JSON") : Response) ≠
      Response.json 404 (errBody "Not found") :=
  ⟨rfl, by simp⟩

/-- Claim C10 (amended): every GET to a path outside the four known GET
endpoints is answered 404 Not found with no Connection Manager call, and
every POST to a path outside the six known POST endpoints is answered 404
with no Connection Manager call provided its body is empty or decodes as
JSON — a nonempty undecodable body is instead answered 400 Invalid JSON
before any path dispatch. -/
theorem unknown_path_not_found
    (sysInfo : Option Manager → Response × List MgrCall)
    (mgr : Option Manager) (query : List (String × List String)) (now : Nat)
    (sub : String → Json → Response × List MgrCall)
    (loads : String → Option Json) (path body : String)
    (h1 : path ≠ "/api/status") (h2 : path ≠ "/api/connections")
    (h3 : path ≠ "/api/screenshot") (h4 : path ≠ "/api/system-info")
    (h5 : path ≠ "/api/connect") (h6 : path ≠ "/api/disconnect")
    (h7 : path ≠ "/api/start-hosting") (h8 : path ≠ "/api/stop-hosting")
    (h9 : path ≠ "/api/send-mouse-event")
    (h10 : path ≠ "/api/send-keyboard-event")
    (hbody : body.length = 0 ∨ ∃ j, loads body = some j) :
    doGET sysInfo mgr path query now =
      (Response.json 404 (errBody "Not found"), []) ∧
    doPOST sub loads path body =
      (Response.json 404 (errBody "Not found"), []) := by
  constructor
  · simp [doGET, h1, h2, h3, h4]
  · rcases hbody with h0 | ⟨j, hj⟩
    · simp [doPOST, h0, h5, h6, h7, h8, h9, h10]
    · by_cases hl : 0 < body.length
      · simp [doPOST, hl, hj, h5, h6, h7, h8, h9, h10]
      · simp [doPOST, hl, h5, h6, h7, h8, h9, h10]

/-- Witness for the amended C10 at the unknown path /api/mystery: a GET and
an empty-bodied POST both get 404 Not found and make no manager call. -/
theorem unknown_path_not_found_witness :
    doGET sysInfoNone none "/api/mystery" [] 0 =
      (Response.json 404 (errBody "Not found"), []) ∧
    doPOST subNone loadsNone "/api/mystery" "" =
      (Response.json 404 (errBody "Not found"), []) :=
  unknown_path_not_found sysInfoNone none [] 0 subNone loadsNone
    "/api/mystery" "" (by decide) (by decide) (by decide) (by decide)
    (by decide) (by decide) (by decide) (by decide) (by decide) (by decide)
    (Or.inl rfl)

end RemoteAdmin
